import Mathlib

/-!
Verification of `scripts/generate-preview.js` (preview-GIF generation pipeline).

The script drives a headless browser over the site, records a video while
scrolling through the page sections, then invokes ffmpeg twice (palette
generation, paletted GIF encode) and deletes the temporary video.

This file gives a shallow embedding of the script's pipeline:

* the typing-completion poll `waitForTypingComplete` (source lines 65-96),
  modelled as a discrete-time loop checking the page state every
  `checkInterval` milliseconds;
* the section enumeration and per-section event sequence of the capture loop
  (source lines 50-60 and 99-155);
* the reveal-timeout fallback `forceReveal` (source lines 128-138), with JS
  numbers modelled as rationals;
* asset finalization `resolveRawCapture` (source lines 174-190);
* the encoding stage and cleanup (source lines 195-228) together with the
  whole-run trace `runPipeline`, over a three-flag disk abstraction
  (temp video / palette / final GIF).
-/

namespace GeneratePreview

/-! ## Typing-completion poll (source lines 65-96) -/

/-- Constant `maxWaitTime` (line 66): maximum 60 seconds per section. -/
def maxWaitTime : Nat := 60000

/-- Constant `checkInterval` (line 67): check every 500 ms. -/
def checkInterval : Nat := 500

/-- the post-completion settle `await page.waitForTimeout(1000)` (line 87). -/
def settleDelay : Nat := 1000

/-- The DOM state of one section, as far as the in-page completion check
(lines 71-83) observes it: whether the `terminal-reveal` class is set, and how
many `.typing-element:not(.typing-complete)` elements remain. -/
structure SectionDom where
  terminalReveal : Bool
  typingPending : Nat
deriving DecidableEq, Repr

/-- The `page.evaluate` callback of the poll (lines 71-83): a missing section
(`querySelector` returned nothing) counts as complete; otherwise the section
must carry `terminal-reveal` and have no element still typing. -/
def isCompleteCheck (sec : Option SectionDom) : Bool :=
  match sec with
  | none => true
  | some s => s.terminalReveal && s.typingPending == 0

/-- What the poll hands back to the caller: the returned boolean, the elapsed
milliseconds at the moment control returns, and the console lines it printed. -/
structure PollResult where
  complete : Bool
  elapsedAtReturn : Nat
  log : List String
deriving DecidableEq, Repr

/-- The timeout warning printed at line 94. -/
def typingTimeoutWarning (sel : String) : String :=
  "  ⚠️  Timeout waiting for section " ++ sel ++ ", continuing..."

/-- The `while (Date.now() - startTime < maxWaitTime)` loop of
`waitForTypingComplete` (lines 70-95).  `dom t` is the section state the
in-page check would observe `t` milliseconds after the poll started; each
iteration evaluates the check, returns true after the settle delay on
completion, and otherwise sleeps `checkInterval`.  `fuel` is a structural
bound on the number of iterations; whenever
`maxWaitTime ≤ elapsed + fuel * checkInterval` the fuel case is never the one
that fires (its result coincides with the loop-exit result, see
`pollFrom_spec`), so `pollFuel` iterations are always enough. -/
def pollFrom (sel : String) (dom : Nat → Option SectionDom) :
    Nat → Nat → PollResult
  | 0, elapsed =>
      { complete := false, elapsedAtReturn := elapsed
        log := [typingTimeoutWarning sel] }
  | fuel + 1, elapsed =>
      if elapsed < maxWaitTime then
        if isCompleteCheck (dom elapsed) then
          { complete := true, elapsedAtReturn := elapsed + settleDelay, log := [] }
        else
          pollFrom sel dom fuel (elapsed + checkInterval)
      else
        { complete := false, elapsedAtReturn := elapsed
          log := [typingTimeoutWarning sel] }

/-- Iteration budget used to run the loop: more than `maxWaitTime / checkInterval`
iterations can never be needed. -/
def pollFuel : Nat := maxWaitTime / checkInterval + 1

/-- Function `waitForTypingComplete(sectionSelector)` (lines 65-96): run the
poll from elapsed time 0. -/
def waitForTypingComplete (sel : String) (dom : Nat → Option SectionDom) :
    PollResult :=
  pollFrom sel dom pollFuel 0

/-- Step equation: a check that observes completion returns true after the
settle delay. -/
theorem pollFrom_succ_complete (sel : String) (dom : Nat → Option SectionDom)
    (fuel elapsed : Nat) (h1 : elapsed < maxWaitTime)
    (h2 : isCompleteCheck (dom elapsed) = true) :
    pollFrom sel dom (fuel + 1) elapsed =
      { complete := true, elapsedAtReturn := elapsed + settleDelay, log := [] } := by
  simp [pollFrom, h1, h2]

/-- Step equation: a check that observes an incomplete section sleeps for one
interval and polls again. -/
theorem pollFrom_succ_pending (sel : String) (dom : Nat → Option SectionDom)
    (fuel elapsed : Nat) (h1 : elapsed < maxWaitTime)
    (h2 : isCompleteCheck (dom elapsed) = false) :
    pollFrom sel dom (fuel + 1) elapsed =
      pollFrom sel dom fuel (elapsed + checkInterval) := by
  simp [pollFrom, h1, h2]

/-- Step equation: once the budget is exhausted, the loop exits with `false`
and the warning. -/
theorem pollFrom_budget_out (sel : String) (dom : Nat → Option SectionDom)
    (fuel elapsed : Nat) (h1 : ¬ elapsed < maxWaitTime) :
    pollFrom sel dom (fuel + 1) elapsed =
      { complete := false, elapsedAtReturn := elapsed
        log := [typingTimeoutWarning sel] } := by
  simp [pollFrom, h1]

/-- Core invariant of the poll: starting at a multiple of the check interval
with enough fuel, control returns no later than `maxWaitTime + settleDelay`,
and on the timeout path it returns exactly at `maxWaitTime` having printed the
warning (and only then). -/
theorem pollFrom_spec (sel : String) (dom : Nat → Option SectionDom) :
    ∀ fuel elapsed, elapsed % checkInterval = 0 → elapsed ≤ maxWaitTime →
      maxWaitTime ≤ elapsed + fuel * checkInterval →
      (pollFrom sel dom fuel elapsed).elapsedAtReturn ≤ maxWaitTime + settleDelay ∧
      ((pollFrom sel dom fuel elapsed).complete = false →
        (pollFrom sel dom fuel elapsed).elapsedAtReturn = maxWaitTime ∧
        (pollFrom sel dom fuel elapsed).log = [typingTimeoutWarning sel]) ∧
      ((pollFrom sel dom fuel elapsed).complete = true →
        (pollFrom sel dom fuel elapsed).log = []) := by
  intro fuel
  induction fuel with
  | zero =>
    intro elapsed h500 hle hge
    have he : elapsed = maxWaitTime := by
      simp only [maxWaitTime, checkInterval] at *
      omega
    subst he
    refine ⟨by simp [pollFrom]; try omega, fun _ => ⟨by simp [pollFrom], by simp [pollFrom]⟩, ?_⟩
    intro h
    simp [pollFrom] at h
  | succ fuel ih =>
    intro elapsed h500 hle hge
    by_cases hg : elapsed < maxWaitTime
    · cases hc : isCompleteCheck (dom elapsed) with
      | true =>
        rw [pollFrom_succ_complete sel dom fuel elapsed hg hc]
        refine ⟨by simp; try omega, fun h => by simp at h, fun _ => rfl⟩
      | false =>
        rw [pollFrom_succ_pending sel dom fuel elapsed hg hc]
        have hstep : elapsed + checkInterval ≤ maxWaitTime := by
          simp only [checkInterval, maxWaitTime] at *
          omega
        have h500' : (elapsed + checkInterval) % checkInterval = 0 := by
          simp only [checkInterval] at *
          omega
        have hge' : maxWaitTime ≤ elapsed + checkInterval + fuel * checkInterval := by
          simp only [checkInterval, maxWaitTime] at *
          omega
        exact ih (elapsed + checkInterval) h500' hstep hge'
    · rw [pollFrom_budget_out sel dom fuel elapsed hg]
      refine ⟨by simp; try omega, fun _ => ⟨by simp; omega, rfl⟩, ?_⟩
      intro h
      simp at h

/-- The returned boolean is true exactly when some check (one per interval,
within the budget) observed completion. -/
theorem pollFrom_complete_iff (sel : String) (dom : Nat → Option SectionDom) :
    ∀ fuel m, maxWaitTime ≤ checkInterval * m + fuel * checkInterval →
      ((pollFrom sel dom fuel (checkInterval * m)).complete = true ↔
        ∃ k, m ≤ k ∧ checkInterval * k < maxWaitTime ∧
          isCompleteCheck (dom (checkInterval * k)) = true) := by
  intro fuel
  induction fuel with
  | zero =>
    intro m hge
    constructor
    · intro h
      simp [pollFrom] at h
    · rintro ⟨k, hk, hlt, _⟩
      have hmk : checkInterval * m ≤ checkInterval * k := Nat.mul_le_mul_left _ hk
      simp only [checkInterval, maxWaitTime] at *
      omega
  | succ fuel ih =>
    intro m hge
    by_cases hg : checkInterval * m < maxWaitTime
    · cases hc : isCompleteCheck (dom (checkInterval * m)) with
      | true =>
        rw [pollFrom_succ_complete sel dom fuel _ hg hc]
        simp only [true_iff]
        exact ⟨m, Nat.le_refl m, hg, hc⟩
      | false =>
        rw [pollFrom_succ_pending sel dom fuel _ hg hc]
        have hrw : checkInterval * m + checkInterval = checkInterval * (m + 1) := by
          ring
        have hge' : maxWaitTime ≤ checkInterval * (m + 1) + fuel * checkInterval := by
          simp only [checkInterval, maxWaitTime] at *
          omega
        rw [hrw, ih (m + 1) hge']
        constructor
        · rintro ⟨k, hk, h1, h2⟩
          exact ⟨k, Nat.le_of_succ_le hk, h1, h2⟩
        · rintro ⟨k, hk, h1, h2⟩
          rcases Nat.lt_or_ge m k with hmk | hmk
          · exact ⟨k, hmk, h1, h2⟩
          · have hkm : k = m := Nat.le_antisymm hmk hk
            subst hkm
            rw [hc] at h2
            exact absurd h2 (by simp)
    · rw [pollFrom_budget_out sel dom fuel _ hg]
      constructor
      · intro h
        simp at h
      · rintro ⟨k, hk, hlt, _⟩
        have hmk : checkInterval * m ≤ checkInterval * k := Nat.mul_le_mul_left _ hk
        omega

/-- A page state on which the completion check first succeeds at the very last
poll (elapsed 59500 ms): before that, one typing element is still pending. -/
def lateDom : Nat → Option SectionDom := fun t =>
  if t < 59500 then some { terminalReveal := true, typingPending := 1 }
  else some { terminalReveal := true, typingPending := 0 }

/-- C3, counterexample. The claim asserts the poll returns control within
its configured maximum wait of 60000 ms for every page state.  On `lateDom`,
completion is observed at the 59500 ms check, and the poll then sleeps the
fixed 1000 ms settle delay before returning: control returns at 60500 ms,
beyond the configured 60000 ms budget. -/
theorem C3_counterexample :
    ¬ ((waitForTypingComplete ".section:nth-of-type(2)" lateDom).elapsedAtReturn
        ≤ maxWaitTime) := by
  decide

/-- C3 (amended). For every section selector and every page state, the
typing-completion poll returns control within its configured maximum wait
*plus the fixed 1000 ms post-completion settle delay* (so within 61000 ms;
exactly at 60000 ms on budget exhaustion), returning a boolean — true exactly
when some 500 ms-spaced check within the budget observed completion, false
with the logged timeout warning on budget exhaustion — and never throws or
blocks indefinitely (it is a total function). -/
theorem C3_typing_poll_bounded (sel : String) (dom : Nat → Option SectionDom) :
    (waitForTypingComplete sel dom).elapsedAtReturn ≤ maxWaitTime + settleDelay ∧
    ((waitForTypingComplete sel dom).complete = false →
      (waitForTypingComplete sel dom).elapsedAtReturn = maxWaitTime ∧
      (waitForTypingComplete sel dom).log = [typingTimeoutWarning sel]) ∧
    ((waitForTypingComplete sel dom).complete = true →
      (waitForTypingComplete sel dom).log = []) ∧
    ((waitForTypingComplete sel dom).complete = true ↔
      ∃ k, checkInterval * k < maxWaitTime ∧
        isCompleteCheck (dom (checkInterval * k)) = true) := by
  have h1 := pollFrom_spec sel dom pollFuel 0 (by decide) (by decide) (by decide)
  have h2 := pollFrom_complete_iff sel dom pollFuel 0 (by decide)
  simp only [Nat.mul_zero] at h2
  refine ⟨h1.1, h1.2.1, h1.2.2, ?_⟩
  rw [waitForTypingComplete, h2]
  constructor
  · rintro ⟨k, _, h3, h4⟩
    exact ⟨k, h3, h4⟩
  · rintro ⟨k, h3, h4⟩
    exact ⟨k, Nat.zero_le k, h3, h4⟩

/-- C3, witness for the amended theorem at a concrete page state. -/
theorem C3_typing_poll_bounded_witness :
    (waitForTypingComplete ".hero-section"
        (fun _ => some { terminalReveal := false, typingPending := 1 })).elapsedAtReturn
      ≤ maxWaitTime + settleDelay :=
  (C3_typing_poll_bounded ".hero-section"
    (fun _ => some { terminalReveal := false, typingPending := 1 })).1

/-- C10. In the typing-completion poll, if the section's CSS selector
matches no element at check time (`querySelector` returns nothing), the
completion check evaluates to complete immediately and the poll returns true
after the fixed settle delay, with nothing logged — a missing section is
treated as finished, never as an error or a timeout. -/
theorem C10_missing_section (sel : String) (dom : Nat → Option SectionDom)
    (h : dom 0 = none) :
    isCompleteCheck (dom 0) = true ∧
    (waitForTypingComplete sel dom).complete = true ∧
    (waitForTypingComplete sel dom).elapsedAtReturn = settleDelay ∧
    (waitForTypingComplete sel dom).log = [] := by
  have hc : isCompleteCheck (dom 0) = true := by rw [h]; rfl
  have h121 : pollFuel = 120 + 1 := rfl
  have hstep := pollFrom_succ_complete sel dom 120 0 (by decide) hc
  refine ⟨hc, ?_, ?_, ?_⟩ <;>
    simp [waitForTypingComplete, h121, hstep, settleDelay]

/-- C10, witness: a page with no such element at all. -/
theorem C10_missing_section_witness :
    isCompleteCheck ((fun _ => (none : Option SectionDom)) 0) = true ∧
    (waitForTypingComplete ".hero-section" (fun _ => none)).complete = true ∧
    (waitForTypingComplete ".hero-section" (fun _ => none)).elapsedAtReturn
      = settleDelay ∧
    (waitForTypingComplete ".hero-section" (fun _ => none)).log = [] :=
  C10_missing_section ".hero-section" (fun _ => none) rfl

/-! ## Section enumeration (source lines 50-60) and capture loop (lines 99-155) -/

/-- JS `String.prototype.includes`, modelled as substring containment on the
underlying character lists. -/
def includesSub (s pat : String) : Bool := decide (pat.data <:+: s.data)

/-- A DOM element as the section-enumeration `page.evaluate` (lines 50-60)
reads it: its `id` attribute and its `className` string. -/
structure DomSectionEl where
  id : String
  className : String
deriving DecidableEq, Repr

/-- Line 53: `heroSection ? [heroSection, ...regularSections] : regularSections`.
`hero` is the result of `querySelector('.hero-section')` and `regular` the
document-order list from `querySelectorAll('.section:not(.hero-section)')`. -/
def allSections (hero : Option DomSectionEl) (regular : List DomSectionEl) :
    List DomSectionEl :=
  match hero with
  | some h => h :: regular
  | none => regular

/-- The record built for each section (lines 55-59). -/
structure SectionInfo where
  index : Nat
  id : String
  selector : String
deriving DecidableEq, Repr

/-- Lines 55-59: the body of `allSections.map((section, index) => ...)`; an
empty `id` attribute is falsy in JS, so `section.id || ...` falls back to the
synthesized name. -/
def mkSectionInfo (index : Nat) (s : DomSectionEl) : SectionInfo :=
  { index
    id := if s.id = "" then "section-" ++ toString index else s.id
    selector := if includesSub s.className "hero-section" then ".hero-section"
                else ".section:nth-of-type(" ++ toString (index + 1) ++ ")" }

/-- JS `Array.prototype.map` with the element index as second argument. -/
def mapWithIndex (f : Nat → DomSectionEl → SectionInfo) :
    Nat → List DomSectionEl → List SectionInfo
  | _, [] => []
  | i, s :: rest => f i s :: mapWithIndex f (i + 1) rest

/-- The section list the driver iterates (lines 50-60). -/
def sectionInfos (hero : Option DomSectionEl) (regular : List DomSectionEl) :
    List SectionInfo :=
  mapWithIndex mkSectionInfo 0 (allSections hero regular)

/-- One awaited operation of the capture loop, in program order. -/
inductive Ev
  | scrollIntoView (index : Nat)
  | sleep (ms : Nat)
  | waitSelector (sel : String) (timeoutMs : Nat)
  | forceRevealEval (sel : String)
  | typingPoll (sel : String)
deriving DecidableEq, Repr

/-- The body of the per-section loop (lines 99-155) for one section, as the
ordered list of awaited operations it performs.  `revealAppears sel` says
whether `waitForSelector(sel + '.terminal-reveal', 5000)` succeeded within its
5000 ms bound; when it did not, the driver catches the timeout exception and
runs the force-reveal evaluate instead of propagating an error. -/
def sectionEvents (revealAppears : String → Bool) (s : SectionInfo) : List Ev :=
  [Ev.scrollIntoView s.index, Ev.sleep 1000] ++
  (if !includesSub s.selector "hero-section" then
    [Ev.waitSelector (s.selector ++ ".terminal-reveal") 5000] ++
    (if revealAppears s.selector then [] else [Ev.forceRevealEval s.selector]) ++
    [Ev.sleep 600, Ev.typingPoll s.selector]
  else
    [Ev.sleep 3000]) ++
  [Ev.sleep 500]

/-- The full capture loop (lines 99-155): the per-section event lists, in
section order. -/
def driverEvents (revealAppears : String → Bool) (hero : Option DomSectionEl)
    (regular : List DomSectionEl) : List Ev :=
  (sectionInfos hero regular).flatMap (sectionEvents revealAppears)

/-- The `getBoundingClientRect` coordinates of a section, JS numbers modelled
as rationals. -/
structure Rect where
  top : ℚ
  bottom : ℚ
deriving DecidableEq

/-- The section state the force-reveal evaluate (lines 128-138) observes:
whether `terminal-reveal` is already present, and the bounding box. -/
structure RevealDom where
  terminalReveal : Bool
  rect : Rect
deriving DecidableEq

/-- Line 133: `rect.top < window.innerHeight * 0.95 && rect.bottom > 0`. -/
def isVisibleInViewport (r : Rect) (innerHeight : ℚ) : Bool :=
  decide (r.top < innerHeight * 0.95) && decide (r.bottom > 0)

/-- The catch-block evaluate (lines 128-138): when the reveal marker never
appeared within the bound, add `terminal-reveal` manually provided the section
exists, lacks the class, and its bounding box is visible in the viewport;
otherwise leave the DOM unchanged.  It is a total function: the timeout path
never raises. -/
def forceReveal (sec : Option RevealDom) (innerHeight : ℚ) : Option RevealDom :=
  match sec with
  | none => none
  | some s =>
      if !s.terminalReveal then
        if isVisibleInViewport s.rect innerHeight then
          some { s with terminalReveal := true }
        else
          some s
      else
        some s

/-- Positions in the mapped section list: element `j` of the output is `f`
applied to index `i + j` and element `j` of the input, so document order is
preserved. -/
theorem mapWithIndex_getElem? (f : Nat → DomSectionEl → SectionInfo) :
    ∀ (l : List DomSectionEl) (i j : Nat),
      (mapWithIndex f i l)[j]? = (l[j]?).map (f (i + j)) := by
  intro l
  induction l with
  | nil => intro i j; simp [mapWithIndex]
  | cons s rest ih =>
    intro i j
    cases j with
    | zero => simp [mapWithIndex]
    | succ j =>
      have := ih (i + 1) j
      simpa [mapWithIndex, Nat.add_assoc, Nat.add_comm 1 j] using this

/-- Events produced for a section whose selector carries `hero-section`:
scroll, settle, hold 3000 ms, inter-section pause — nothing else. -/
theorem sectionEvents_hero (revealAppears : String → Bool) (s : SectionInfo)
    (hsel : includesSub s.selector "hero-section" = true) :
    sectionEvents revealAppears s =
      [Ev.scrollIntoView s.index, Ev.sleep 1000, Ev.sleep 3000, Ev.sleep 500] := by
  simp [sectionEvents, hsel]

/-- C7. The driver visits the distinguished hero section first, then the
remaining sections in document order (element `j` of the regular list appears
at position `j + 1` with its document index), and for the hero section it
performs only scroll, settle, a fixed 3000 ms hold and the inter-section
pause — no reveal wait, no force-reveal evaluate, no typing-completion poll. -/
theorem C7_hero_first_and_hold (h : DomSectionEl) (regular : List DomSectionEl)
    (revealAppears : String → Bool)
    (hcls : includesSub h.className "hero-section" = true) :
    sectionInfos (some h) regular =
      mkSectionInfo 0 h :: mapWithIndex mkSectionInfo 1 regular ∧
    (∀ j, (sectionInfos (some h) regular)[j + 1]? =
      (regular[j]?).map (mkSectionInfo (1 + j))) ∧
    (mkSectionInfo 0 h).selector = ".hero-section" ∧
    sectionEvents revealAppears (mkSectionInfo 0 h) =
      [Ev.scrollIntoView 0, Ev.sleep 1000, Ev.sleep 3000, Ev.sleep 500] ∧
    (∀ e ∈ sectionEvents revealAppears (mkSectionInfo 0 h),
      (∀ sel t, e ≠ Ev.waitSelector sel t) ∧ (∀ sel, e ≠ Ev.typingPoll sel) ∧
      (∀ sel, e ≠ Ev.forceRevealEval sel)) := by
  have hsel : (mkSectionInfo 0 h).selector = ".hero-section" := by
    simp [mkSectionInfo, hcls]
  have hhero : includesSub (mkSectionInfo 0 h).selector "hero-section" = true := by
    rw [hsel]; decide
  have hidx : (mkSectionInfo 0 h).index = 0 := rfl
  have hevents := sectionEvents_hero revealAppears (mkSectionInfo 0 h) hhero
  rw [hidx] at hevents
  refine ⟨rfl, ?_, hsel, hevents, ?_⟩
  · intro j
    show (mapWithIndex mkSectionInfo 0 (h :: regular))[j + 1]? = _
    rw [mapWithIndex_getElem? mkSectionInfo (h :: regular) 0 (j + 1)]
    simp [Nat.add_comm 1 j]
  · intro e he
    rw [hevents] at he
    fin_cases he <;> exact ⟨fun _ _ => by simp, fun _ => by simp, fun _ => by simp⟩

/-- Concrete hero element for the C7 witness. -/
def heroEl : DomSectionEl := { id := "hero", className := "section hero-section" }

/-- Concrete regular section element for the C7 witness. -/
def aboutEl : DomSectionEl := { id := "about", className := "section" }

/-- C7, witness: hero and one regular section, with the class hypothesis
discharged concretely. -/
theorem C7_hero_first_and_hold_witness :
    includesSub heroEl.className "hero-section" = true ∧
    sectionEvents (fun _ => true) (mkSectionInfo 0 heroEl) =
      [Ev.scrollIntoView 0, Ev.sleep 1000, Ev.sleep 3000, Ev.sleep 500] :=
  ⟨by decide,
   (C7_hero_first_and_hold heroEl [aboutEl] (fun _ => true) (by decide)).2.2.2.1⟩

/-- C6. For a non-leading section whose reveal marker does not appear
within the bounded 5000 ms wait, the driver does not abort: it runs the
force-reveal evaluate and then proceeds to the scan-settle wait, the
typing-completion poll, and the inter-section pause.  The force-reveal
evaluate checks the bounding box against the viewport and synthesizes the
`terminal-reveal` marker exactly when the section is visible, leaving the DOM
unchanged otherwise. -/
theorem C6_reveal_timeout_graceful (s : SectionInfo) (revealAppears : String → Bool)
    (hns : includesSub s.selector "hero-section" = false)
    (hto : revealAppears s.selector = false) :
    sectionEvents revealAppears s =
      [Ev.scrollIntoView s.index, Ev.sleep 1000,
       Ev.waitSelector (s.selector ++ ".terminal-reveal") 5000,
       Ev.forceRevealEval s.selector, Ev.sleep 600, Ev.typingPoll s.selector,
       Ev.sleep 500] ∧
    (∀ (d : RevealDom) (ih : ℚ), d.terminalReveal = false →
      isVisibleInViewport d.rect ih = true →
      forceReveal (some d) ih = some { d with terminalReveal := true }) ∧
    (∀ (d : RevealDom) (ih : ℚ), d.terminalReveal = false →
      isVisibleInViewport d.rect ih = false →
      forceReveal (some d) ih = some d) := by
  refine ⟨by simp [sectionEvents, hns, hto], ?_, ?_⟩
  · intro d ih h1 h2
    simp [forceReveal, h1, h2]
  · intro d ih h1 h2
    simp [forceReveal, h1, h2]

/-- C6, witness: a concrete non-hero section with a timed-out reveal wait,
projected to the event-sequence component. -/
theorem C6_reveal_timeout_graceful_witness :
    includesSub ".section:nth-of-type(2)" "hero-section" = false ∧
    sectionEvents (fun _ => false)
        { index := 1, id := "skills", selector := ".section:nth-of-type(2)" } =
      [Ev.scrollIntoView 1, Ev.sleep 1000,
       Ev.waitSelector ".section:nth-of-type(2).terminal-reveal" 5000,
       Ev.forceRevealEval ".section:nth-of-type(2)", Ev.sleep 600,
       Ev.typingPoll ".section:nth-of-type(2)", Ev.sleep 500] :=
  ⟨by decide,
   (C6_reveal_timeout_graceful
      { index := 1, id := "skills", selector := ".section:nth-of-type(2)" }
      (fun _ => false) (by decide) rfl).1⟩

/-! ## Paths (source lines 6-9, 200) and asset finalization (lines 160-190) -/

/-- Constant `OUTPUT_DIR = path.join(__dirname, '..')` (line 7): the repository
root, kept abstract as a directory name. -/
def OUTPUT_DIR : String := ".."

/-- Constant `TEMP_VIDEO = path.join(OUTPUT_DIR, 'preview-temp.mp4')` (line 8). -/
def TEMP_VIDEO : String := OUTPUT_DIR ++ "/preview-temp.mp4"

/-- Constant `PREVIEW_GIF = path.join(OUTPUT_DIR, 'preview.gif')` (line 9). -/
def PREVIEW_GIF : String := OUTPUT_DIR ++ "/preview.gif"

/-- Constant `palettePath = path.join(OUTPUT_DIR, 'palette.png')` (line 200). -/
def palettePath : String := OUTPUT_DIR ++ "/palette.png"

/-- Helper `path.join(OUTPUT_DIR, file)` as used on line 183. -/
def joinOutputDir (file : String) : String := OUTPUT_DIR ++ "/" ++ file

/-- JS `String.prototype.endsWith`, on the underlying character lists. -/
def jsEndsWith (s suf : String) : Bool := decide (suf.data <:+ s.data)

/-- Line 182: `file.endsWith('.webm') || file.endsWith('.mp4')` — the
recognized video extensions of the fallback scan. -/
def isVideoFile (file : String) : Bool :=
  jsEndsWith file ".webm" || jsEndsWith file ".mp4"

/-- The fallback branch (lines 180-189): filter the directory listing for
video files, join each name with the output directory, adopt the first hit,
and otherwise throw `Error('Video file was not created')`. -/
def scanForVideo (dirListing : List String) : Except String String :=
  match (dirListing.filter (fun f => isVideoFile f)).map joinOutputDir with
  | f :: _ => Except.ok f
  | [] => Except.error "Video file was not created"

/-- Lines 174-190: `videoPath && fs.existsSync(videoPath)` guards the direct
branch, otherwise the scan runs.  A result `.ok p` means file `p` is renamed
to `TEMP_VIDEO` and adopted as the raw capture; `.error` carries the thrown
`Error`'s message. -/
def resolveRawCapture (videoPath : Option String) (onDisk : String → Bool)
    (dirListing : List String) : Except String String :=
  match videoPath with
  | some p => if onDisk p then Except.ok p else scanForVideo dirListing
  | none => scanForVideo dirListing

/-- The scan adopts exactly the first listing entry with a video extension. -/
theorem scanForVideo_eq_find (l : List String) :
    scanForVideo l =
      match l.find? (fun f => isVideoFile f) with
      | some f => Except.ok (joinOutputDir f)
      | none => Except.error "Video file was not created" := by
  induction l with
  | nil => rfl
  | cons f rest ih =>
    cases h : isVideoFile f with
    | true => simp [scanForVideo, List.filter_cons, List.find?_cons, h]
    | false =>
      simp only [scanForVideo, List.filter_cons, List.find?_cons, h] at ih ⊢
      simpa using ih

/-- The operations of `generatePreview`, in the order the source awaits
them. -/
inductive Stage
  | launchBrowser
  | newContext
  | newPage
  | gotoPage
  | captureSections
  | queryVideoPath
  | closePage
  | closeContext
  | graceWait
  | moveVideo
  | ffmpegProbe
  | runPalette
  | runGif
  | unlinkPalette
  | unlinkTempVideo
  | closeBrowser
deriving DecidableEq, Repr

/-- Lines 160-171, in program order: `page.video()` and `await video.path()`
come first (the source comment reads "Get video path before closing"), then
`page.close()`, `context.close()`, the fixed 1000 ms grace wait, and the
move/existence check of the recorded file (lines 174-190). -/
def finalizationStages : List Stage :=
  [Stage.queryVideoPath, Stage.closePage, Stage.closeContext, Stage.graceWait,
   Stage.moveVideo]

/-! ## Encoding stage (source lines 195-222), cleanup (224-228) and the whole
run (232-246) -/

/-- The three `console.error` lines of the shared catch handler
(lines 218-220). -/
def ffmpegRequiredMsgs : List String :=
  ["❌ ffmpeg is required to create GIF.",
   "   Please install ffmpeg: https://ffmpeg.org/download.html",
   "   Or use GitHub Actions which has ffmpeg pre-installed."]

/-- An ffmpeg command line, structured: the `-y` overwrite flag, the `-i`
inputs in order, the `-vf` filter, the `-filter_complex` graph, the `-loop`
argument (`-loop 0` means loop forever), and the output path. -/
structure FfmpegInvocation where
  overwrite : Bool
  inputs : List String
  videoFilter : Option String
  filterComplex : Option String
  loopCount : Option Nat
  output : String
deriving DecidableEq, Repr

/-- The palette-generation invocation of line 201. -/
def paletteInvocation : FfmpegInvocation :=
  { overwrite := true
    inputs := [TEMP_VIDEO]
    videoFilter := some "fps=15,scale=1280:-1:flags=lanczos,palettegen"
    filterComplex := none
    loopCount := none
    output := palettePath }

/-- The final-encode invocation of line 207. -/
def gifInvocation : FfmpegInvocation :=
  { overwrite := true
    inputs := [TEMP_VIDEO, palettePath]
    videoFilter := none
    filterComplex := some "[0:v]fps=15,scale=1280:-1:flags=lanczos[x];[x][1:v]paletteuse"
    loopCount := some 0
    output := PREVIEW_GIF }

/-- Rendering a structured invocation back into the shell command string the
source builds by template interpolation. -/
def renderInvocation (c : FfmpegInvocation) : String :=
  "ffmpeg" ++ (if c.overwrite then " -y" else "")
    ++ String.join (c.inputs.map (fun i => " -i \"" ++ i ++ "\""))
    ++ (match c.videoFilter with
        | some f => " -vf \"" ++ f ++ "\""
        | none => "")
    ++ (match c.filterComplex with
        | some f => " -filter_complex \"" ++ f ++ "\""
        | none => "")
    ++ (match c.loopCount with
        | some n => " -loop " ++ toString n
        | none => "")
    ++ " \"" ++ c.output ++ "\""

/-- The exact `paletteCommand` template string of line 201. -/
def paletteCommand : String :=
  "ffmpeg -y -i \"" ++ TEMP_VIDEO
    ++ "\" -vf \"fps=15,scale=1280:-1:flags=lanczos,palettegen\" \""
    ++ palettePath ++ "\""

/-- The exact `gifCommand` template string of line 207. -/
def gifCommand : String :=
  "ffmpeg -y -i \"" ++ TEMP_VIDEO ++ "\" -i \"" ++ palettePath
    ++ "\" -filter_complex \"[0:v]fps=15,scale=1280:-1:flags=lanczos[x];[x][1:v]paletteuse\" -loop 0 \""
    ++ PREVIEW_GIF ++ "\""

/-- The shared sampling/scaling filter chain of both commands: 15 fps, width
1280 preserving aspect ratio, Lanczos resampling. -/
def sharedFilterChain : String := "fps=15,scale=1280:-1:flags=lanczos"

/-- Which of the run's fatal throws occurred (the rethrown error object). -/
inductive EncodeFailure
  | probeFailed
  | paletteFailed
  | gifFailed
deriving DecidableEq, Repr

/-- Environment facts the encoding stage depends on: whether the ffmpeg binary
is present (the `ffmpeg -version` probe of line 196 succeeds), and whether the
palette and gif invocations exit zero when run. -/
structure RunEnv where
  ffmpegInstalled : Bool
  paletteSucceeds : Bool
  gifSucceeds : Bool
deriving DecidableEq, Repr

/-- Disk state restricted to the three artifacts the run owns. -/
structure Disk where
  tempVideo : Bool
  palette : Bool
  previewGif : Bool
deriving DecidableEq, Repr

/-- Outcome of the encoding stage. -/
structure EncodeResult where
  trace : List Stage
  ranInvocations : List FfmpegInvocation
  failure : Option EncodeFailure
  disk : Disk
  errLog : List String
deriving DecidableEq, Repr

/-- Lines 195-222: `try { probe; palette; gif; unlink palette } catch { print
three lines; rethrow }`.  Each branch below is the prefix of the try block up
to the first failing `execSync`, with the catch handler's `console.error`
lines and the rethrown failure; a failing invocation writes nothing.  The
`-y` flag makes a successful invocation set its output flag regardless of the
previous disk state, and the success path also deletes the palette
(lines 211-214). -/
def encodingStage (env : RunEnv) (d : Disk) : EncodeResult :=
  if !env.ffmpegInstalled then
    { trace := [Stage.ffmpegProbe]
      ranInvocations := []
      failure := some EncodeFailure.probeFailed
      disk := d
      errLog := ffmpegRequiredMsgs }
  else if !env.paletteSucceeds then
    { trace := [Stage.ffmpegProbe, Stage.runPalette]
      ranInvocations := [paletteInvocation]
      failure := some EncodeFailure.paletteFailed
      disk := d
      errLog := ffmpegRequiredMsgs }
  else if !env.gifSucceeds then
    { trace := [Stage.ffmpegProbe, Stage.runPalette, Stage.runGif]
      ranInvocations := [paletteInvocation, gifInvocation]
      failure := some EncodeFailure.gifFailed
      disk := { d with palette := true }
      errLog := ffmpegRequiredMsgs }
  else
    { trace := [Stage.ffmpegProbe, Stage.runPalette, Stage.runGif,
                Stage.unlinkPalette]
      ranInvocations := [paletteInvocation, gifInvocation]
      failure := none
      disk := { d with palette := false, previewGif := true }
      errLog := [] }

/-- Outcome of a whole run of the script. -/
structure RunResult where
  trace : List Stage
  exitCode : Nat
  disk : Disk
  errLog : List String
deriving DecidableEq, Repr

/-- The stages preceding encoding, which this model takes as succeeding
(browser available, navigation within its timeout, recorder produced a file):
the run-level claims concern the encoder-dependent paths.  Order from the
source: launch (line 17), context (22), page (31), goto (35), the capture
loop (50-158), then `finalizationStages` (160-190). -/
def captureAndFinalizeTrace : List Stage :=
  [Stage.launchBrowser, Stage.newContext, Stage.newPage, Stage.gotoPage,
   Stage.captureSections] ++ finalizationStages

/-- A whole `generatePreview` run plus the fatal handler (lines 240-246).
`preGif` says whether a `preview.gif` from an earlier run already exists.
After finalization the disk holds the renamed `TEMP_VIDEO`.  On an encoding
failure the outer catch (line 232) rethrows, the finally block only closes
the browser (line 236), and `process.exit(1)` fires — no file is deleted on
that path; only on success is the temp video unlinked (lines 225-228). -/
def runPipeline (env : RunEnv) (preGif : Bool) : RunResult :=
  let d0 : Disk := { tempVideo := true, palette := false, previewGif := preGif }
  let enc := encodingStage env d0
  match enc.failure with
  | some _ =>
      { trace := captureAndFinalizeTrace ++ enc.trace ++ [Stage.closeBrowser]
        exitCode := 1
        disk := enc.disk
        errLog := enc.errLog ++ ["❌ Error generating preview:", "Fatal error:"] }
  | none =>
      { trace := captureAndFinalizeTrace ++ enc.trace
          ++ [Stage.unlinkTempVideo, Stage.closeBrowser]
        exitCode := 0
        disk := { enc.disk with tempVideo := false }
        errLog := [] }

/-! ## Claims about finalization and the run -/

/-- C4, counterexample. The claim says the recorder's output path is
requested only after page and context are closed.  In the source the path
query is the first finalization operation: it precedes both close operations
(the source's own comment reads "Get video path before closing"), so the
claim is false of the code. -/
theorem C4_counterexample :
    finalizationStages.indexOf Stage.queryVideoPath
        < finalizationStages.indexOf Stage.closePage ∧
    finalizationStages.indexOf Stage.queryVideoPath
        < finalizationStages.indexOf Stage.closeContext := by
  decide

/-- C4 (amended). During asset finalization the recorder's output path is
requested *before* the owning page and context are closed; the close
operations follow the path query (page before context), and only after both
closes and the fixed grace wait is the recorded file checked on disk and
moved. -/
theorem C4_path_query_before_close :
    finalizationStages.indexOf Stage.queryVideoPath
        < finalizationStages.indexOf Stage.closePage ∧
    finalizationStages.indexOf Stage.closePage
        < finalizationStages.indexOf Stage.closeContext ∧
    finalizationStages.indexOf Stage.closeContext
        < finalizationStages.indexOf Stage.graceWait ∧
    finalizationStages.indexOf Stage.graceWait
        < finalizationStages.indexOf Stage.moveVideo := by
  decide

/-- C5. If the recorder's reported video path does not exist on disk, the
driver falls back to scanning the output directory: it adopts the first
listing entry carrying a recognized video extension (`.webm` or `.mp4`) as
the raw capture, and when no such file exists it fails fatally with the
"asset not produced" error (`Error('Video file was not created')`). -/
theorem C5_fallback_scan (p : String) (onDisk : String → Bool)
    (dirListing : List String) (h : onDisk p = false) :
    (∀ f, dirListing.find? (fun g => isVideoFile g) = some f →
      resolveRawCapture (some p) onDisk dirListing
          = Except.ok (joinOutputDir f) ∧
        f ∈ dirListing ∧ isVideoFile f = true) ∧
    (dirListing.find? (fun g => isVideoFile g) = none →
      resolveRawCapture (some p) onDisk dirListing
        = Except.error "Video file was not created") := by
  have hres : resolveRawCapture (some p) onDisk dirListing
      = scanForVideo dirListing := by
    simp [resolveRawCapture, h]
  rw [hres, scanForVideo_eq_find]
  constructor
  · intro f hf
    rw [hf]
    exact ⟨rfl, List.mem_of_find?_eq_some hf, by simpa using List.find?_some hf⟩
  · intro hf
    rw [hf]

/-- C5, witness: reported path missing, one `.webm` file among other
entries. -/
theorem C5_fallback_scan_witness :
    ((fun _ => false) TEMP_VIDEO = false) ∧
    resolveRawCapture (some TEMP_VIDEO) (fun _ => false)
        ["README.md", "video-1a2b.webm", "notes.txt"]
      = Except.ok (joinOutputDir "video-1a2b.webm") :=
  ⟨rfl,
   ((C5_fallback_scan TEMP_VIDEO (fun _ => false)
      ["README.md", "video-1a2b.webm", "notes.txt"] rfl).1
      "video-1a2b.webm" (by decide)).1⟩

/-- C1, counterexample. The claim says that for every run outcome no
intermediate artifact survives.  On the run where ffmpeg is installed, the
palette invocation succeeds and the final encode exits nonzero, the process
exits nonzero with both the raw capture video *and* the palette image still
on disk: cleanup did not execute on the failure path. -/
theorem C1_counterexample :
    (runPipeline
        { ffmpegInstalled := true, paletteSucceeds := true, gifSucceeds := false }
        false).exitCode = 1 ∧
    (runPipeline ⟨true, true, false⟩ false).disk.tempVideo = true ∧
    (runPipeline ⟨true, true, false⟩ false).disk.palette = true := by
  decide

/-- C1 (amended). Cleanup of intermediates runs only on the success path:
on a successful run the process exits 0 and the disk holds exactly the final
GIF (temp video and palette deleted, the output written even over a
pre-existing GIF); on any encoding failure the process exits nonzero and the
raw capture video remains on disk.  A run succeeds exactly when ffmpeg is
installed and both invocations exit zero. -/
theorem C1_cleanup_success_only (env : RunEnv) (preGif : Bool) :
    ((runPipeline env preGif).exitCode = 0 →
      (runPipeline env preGif).disk
        = { tempVideo := false, palette := false, previewGif := true }) ∧
    ((runPipeline env preGif).exitCode ≠ 0 →
      (runPipeline env preGif).disk.tempVideo = true) ∧
    ((runPipeline env preGif).exitCode = 0 ↔
      env.ffmpegInstalled = true ∧ env.paletteSucceeds = true ∧
        env.gifSucceeds = true) := by
  rcases env with ⟨fi, ps, gs⟩
  cases fi <;> cases ps <;> cases gs <;> cases preGif <;> decide

/-- C1, witness: the all-success run, leaving only the final GIF. -/
theorem C1_cleanup_success_only_witness :
    (runPipeline ⟨true, true, true⟩ true).exitCode = 0 ∧
    (runPipeline ⟨true, true, true⟩ true).disk
      = { tempVideo := false, palette := false, previewGif := true } :=
  ⟨by decide, (C1_cleanup_success_only ⟨true, true, true⟩ true).1 (by decide)⟩

/-- C2, counterexample. The claim says that with ffmpeg absent the
process exits nonzero *without ever having opened a browser page*.  In the
source the probe only happens in the encoding stage: the failing run's trace
contains the page-open operation (and the whole capture), so the claim is
false of the code. -/
theorem C2_counterexample :
    (runPipeline ⟨false, true, true⟩ false).exitCode = 1 ∧
    Stage.newPage ∈ (runPipeline ⟨false, true, true⟩ false).trace := by
  decide

/-- C2 (amended). If ffmpeg is absent the run does fail fatally — exit
code 1, with the messages naming ffmpeg and giving install guidance — but the
probe happens only in the encoding stage, after the capture: the trace opens
a browser page strictly before the encoder probe. -/
theorem C2_probe_after_capture (env : RunEnv) (preGif : Bool)
    (h : env.ffmpegInstalled = false) :
    (runPipeline env preGif).exitCode = 1 ∧
    (∀ m ∈ ffmpegRequiredMsgs, m ∈ (runPipeline env preGif).errLog) ∧
    List.Sublist [Stage.newPage, Stage.ffmpegProbe]
      (runPipeline env preGif).trace := by
  rcases env with ⟨fi, ps, gs⟩
  cases fi with
  | true => exact Bool.noConfusion h
  | false => cases ps <;> cases gs <;> cases preGif <;> decide

/-- C2, witness: ffmpeg absent, everything else functional. -/
theorem C2_probe_after_capture_witness :
    ({ ffmpegInstalled := false, paletteSucceeds := true, gifSucceeds := true }
        : RunEnv).ffmpegInstalled = false ∧
    (runPipeline ⟨false, true, true⟩ false).exitCode = 1 :=
  ⟨rfl, (C2_probe_after_capture ⟨false, true, true⟩ false rfl).1⟩

/-- C8. On the path where both encoder calls run, the encoding stage
performs exactly two invocations, palette generation first and the final
encode second; both carry the unconditional `-y` overwrite flag; the final
encode consumes the same input and the same fps/scale/resampling filter chain
as palette generation, composites against the generated palette, loops
forever (`-loop 0`) and writes the fixed output path — and the structured
invocations render to the exact command strings of the source.  The final
GIF flag on disk is set regardless of the previous disk state. -/
theorem C8_two_invocations (env : RunEnv) (d : Disk)
    (hi : env.ffmpegInstalled = true) (hp : env.paletteSucceeds = true)
    (hg : env.gifSucceeds = true) :
    (encodingStage env d).ranInvocations = [paletteInvocation, gifInvocation] ∧
    (encodingStage env d).ranInvocations.length = 2 ∧
    (∀ c ∈ (encodingStage env d).ranInvocations, c.overwrite = true) ∧
    paletteInvocation.inputs = [TEMP_VIDEO] ∧
    paletteInvocation.videoFilter = some (sharedFilterChain ++ ",palettegen") ∧
    gifInvocation.inputs = [TEMP_VIDEO, palettePath] ∧
    gifInvocation.filterComplex
      = some ("[0:v]" ++ sharedFilterChain ++ "[x];[x][1:v]paletteuse") ∧
    gifInvocation.loopCount = some 0 ∧
    gifInvocation.output = PREVIEW_GIF ∧
    renderInvocation paletteInvocation = paletteCommand ∧
    renderInvocation gifInvocation = gifCommand ∧
    (encodingStage env d).disk.previewGif = true := by
  have he : encodingStage env d
      = { trace := [Stage.ffmpegProbe, Stage.runPalette, Stage.runGif,
                    Stage.unlinkPalette]
          ranInvocations := [paletteInvocation, gifInvocation]
          failure := none
          disk := { d with palette := false, previewGif := true }
          errLog := [] } := by
    simp [encodingStage, hi, hp, hg]
  rw [he]
  refine ⟨rfl, rfl, ?_, rfl, rfl, rfl, rfl, rfl, rfl, rfl, rfl, rfl⟩
  intro c hc
  simp only [List.mem_cons, List.not_mem_nil, or_false] at hc
  rcases hc with h1 | h1 <;> subst h1 <;> rfl

/-- C8, witness: the success environment, starting from a disk that
already holds a previous GIF (overwritten). -/
theorem C8_two_invocations_witness :
    (encodingStage ⟨true, true, true⟩
        { tempVideo := true, palette := false, previewGif := true }).ranInvocations
      = [paletteInvocation, gifInvocation] :=
  (C8_two_invocations ⟨true, true, true⟩
    { tempVideo := true, palette := false, previewGif := true } rfl rfl rfl).1

/-- C9. Every failure inside the encoding stage — the probe failing
because ffmpeg is absent, or the palette or final-encode invocation exiting
nonzero with ffmpeg installed — lands in the one shared catch handler, which
prints the same three lines (stating ffmpeg is required, with install
guidance) and rethrows the original error: the failure value identifies which
step threw, but the printed report is identical for all three, so an encode
failure is reported as if the dependency were missing. -/
theorem C9_shared_ffmpeg_handler (env : RunEnv) (d : Disk)
    (hfail : (encodingStage env d).failure ≠ none) :
    (encodingStage env d).errLog = ffmpegRequiredMsgs ∧
    "❌ ffmpeg is required to create GIF." ∈ ffmpegRequiredMsgs ∧
    "   Please install ffmpeg: https://ffmpeg.org/download.html"
      ∈ ffmpegRequiredMsgs ∧
    ((encodingStage env d).failure = some EncodeFailure.probeFailed ↔
      env.ffmpegInstalled = false) ∧
    ((encodingStage env d).failure = some EncodeFailure.paletteFailed ↔
      env.ffmpegInstalled = true ∧ env.paletteSucceeds = false) ∧
    ((encodingStage env d).failure = some EncodeFailure.gifFailed ↔
      env.ffmpegInstalled = true ∧ env.paletteSucceeds = true ∧
        env.gifSucceeds = false) := by
  by_cases hall : env.ffmpegInstalled = true ∧ env.paletteSucceeds = true ∧
      env.gifSucceeds = true
  · obtain ⟨h1, h2, h3⟩ := hall
    exact absurd (by simp [encodingStage, h1, h2, h3]) hfail
  · rcases env with ⟨fi, ps, gs⟩
    cases fi <;> cases ps <;> cases gs <;>
      simp_all [encodingStage, ffmpegRequiredMsgs]

/-- C9, witness: the final encode fails with ffmpeg installed, yet the
report is the missing-dependency message. -/
theorem C9_shared_ffmpeg_handler_witness :
    ((encodingStage ⟨true, true, false⟩
        { tempVideo := true, palette := false, previewGif := false }).failure
      ≠ none) ∧
    (encodingStage ⟨true, true, false⟩
        { tempVideo := true, palette := false, previewGif := false }).errLog
      = ffmpegRequiredMsgs :=
  ⟨by decide,
   (C9_shared_ffmpeg_handler ⟨true, true, false⟩
      { tempVideo := true, palette := false, previewGif := false }
      (by decide)).1⟩

end GeneratePreview
